import Mathlib

/-!
Verification development for the Slack PRD bot's document-to-ticket pipeline.

The definitions below are a shallow embedding of the Python source:

* `bot/analysis.py` — `_strip_code_fences` and the post-LLM part of
  `analyze_with_openai` (fence stripping, `json.loads`, pydantic
  validation of `RequirementExtractionResponse`);
* `bot/slack_handlers.py` — the `ANALYSIS_CACHE` put/pop logic of
  `handle_message_events` / `handle_create_tasks`;
* `bot/jira_integration.py` — `_PRIORITY_MAPPING`,
  `format_adf_description` and `create_jira_tasks` (payload building,
  rate-limit retry loop, one-shot priority-field retry).

Python strings are modelled as `List Char`; library calls
(`str.strip`, `str.splitlines`, `str.startswith`, `json.loads`) are
re-implemented below following their documented semantics.  JSON
numbers are modelled as integers (documents with fractional numbers
are outside this model), and `\uXXXX` escapes for surrogate code
units are rejected rather than pair-combined.
-/

/-! ## Python string primitives (`str.strip`, `str.splitlines`) -/

/-- Characters stripped by Python's `str.strip()` (the `str.isspace` set). -/
def pyIsSpace (c : Char) : Bool :=
  c = ' ' || c = '\t' || c = '\n' || c = '\r' || c = '\x0b' || c = '\x0c' ||
  c = '\x1c' || c = '\x1d' || c = '\x1e' || c = '\x1f' || c = '\x85' ||
  c = '\xa0' || c = ' ' ||
  (' ' ≤ c && c ≤ ' ') ||
  c = ' ' || c = ' ' || c = ' ' || c = ' ' || c = '　'

/-- `str.strip()` with no arguments: trim `pyIsSpace` from both ends. -/
def pyStrip (cs : List Char) : List Char :=
  ((cs.dropWhile pyIsSpace).reverse.dropWhile pyIsSpace).reverse

/-- Line-boundary characters recognised by Python's `str.splitlines`. -/
def isLineBreak (c : Char) : Bool :=
  c = '\n' || c = '\r' || c = '\x0b' || c = '\x0c' ||
  c = '\x1c' || c = '\x1d' || c = '\x1e' || c = '\x85' ||
  c = ' ' || c = ' '

/-- Worker for `pySplitlines`; `acc` holds the current line reversed.
A `"\r\n"` pair counts as a single boundary, and a trailing boundary
does not produce a final empty line. -/
def pySplitlinesGo : List Char → List Char → List (List Char)
  | [], acc => [acc.reverse]
  | [c], acc => if isLineBreak c then [acc.reverse] else [(c :: acc).reverse]
  | c :: c2 :: rest, acc =>
    if c = '\r' && c2 = '\n' then
      match rest with
      | [] => [acc.reverse]
      | r1 :: rrest => acc.reverse :: pySplitlinesGo (r1 :: rrest) []
    else if isLineBreak c then
      acc.reverse :: pySplitlinesGo (c2 :: rest) []
    else
      pySplitlinesGo (c2 :: rest) (c :: acc)

/-- Python's `str.splitlines()`. -/
def pySplitlines (cs : List Char) : List (List Char) :=
  if cs.isEmpty then [] else pySplitlinesGo cs []

/-- `"\n".join(lines)`. -/
def joinNL : List (List Char) → List Char
  | [] => []
  | l :: ls =>
    match ls with
    | [] => l
    | _ :: _ => l ++ '\n' :: joinNL ls

/-- `line.startswith("```")`. -/
def startsFence (l : List Char) : Bool :=
  List.isPrefixOf ['`', '`', '`'] l

/-! ## `_strip_code_fences` (bot/analysis.py lines 63-74) -/

/-- `if lines and lines[0].startswith("```"): lines = lines[1:]`. -/
def dropLeadFence : List (List Char) → List (List Char)
  | [] => []
  | l :: rest => if startsFence l then rest else l :: rest

/-- `if lines and lines[-1].startswith("```"): lines = lines[:-1]`. -/
def dropTailFence (ls : List (List Char)) : List (List Char) :=
  match ls.getLast? with
  | some l => if startsFence l then ls.dropLast else ls
  | none => ls

/-- `_strip_code_fences` from `bot/analysis.py`: strip the whole text,
split into lines, drop a leading and then a trailing fence line, and
rejoin with `"\n"`. -/
def stripCodeFences (cs : List Char) : List Char :=
  joinNL (dropTailFence (dropLeadFence (pySplitlines (pyStrip cs))))

/-! ## JSON values and `json.loads` -/

/-- JSON values.  Object fields keep source order (possibly with
duplicate keys, as in the token stream); numbers are integers. -/
inductive Json where
  | jnull
  | jbool (b : Bool)
  | jnum (n : Int)
  | jstr (s : String)
  | jarr (elems : List Json)
  | jobj (fields : List (String × Json))
deriving Repr, BEq

/-- JSON whitespace accepted between tokens. -/
def jsonWsChar (c : Char) : Bool :=
  c = ' ' || c = '\t' || c = '\n' || c = '\r'

/-- Skip JSON whitespace. -/
def skipWs (cs : List Char) : List Char := cs.dropWhile jsonWsChar

/-- Value of one hexadecimal digit. -/
def hexVal (c : Char) : Option Nat :=
  if '0' ≤ c && c ≤ '9' then some (c.toNat - 48)
  else if 'a' ≤ c && c ≤ 'f' then some (c.toNat - 87)
  else if 'A' ≤ c && c ≤ 'F' then some (c.toNat - 55)
  else none

/-- Parse a JSON string body (the opening quote already consumed).
Literal control characters below `0x20` are rejected (`json.loads`
strict mode); `\uXXXX` escapes in the surrogate range are rejected. -/
def parseStrBody : Nat → List Char → Option (List Char × List Char)
  | 0, _ => none
  | fuel + 1, cs =>
    match cs with
    | [] => none
    | '"' :: rest => some ([], rest)
    | '\\' :: esc =>
      match esc with
      | '"' :: r => (parseStrBody fuel r).map (fun p => ('"' :: p.1, p.2))
      | '\\' :: r => (parseStrBody fuel r).map (fun p => ('\\' :: p.1, p.2))
      | '/' :: r => (parseStrBody fuel r).map (fun p => ('/' :: p.1, p.2))
      | 'b' :: r => (parseStrBody fuel r).map (fun p => ('\x08' :: p.1, p.2))
      | 'f' :: r => (parseStrBody fuel r).map (fun p => ('\x0c' :: p.1, p.2))
      | 'n' :: r => (parseStrBody fuel r).map (fun p => ('\n' :: p.1, p.2))
      | 'r' :: r => (parseStrBody fuel r).map (fun p => ('\r' :: p.1, p.2))
      | 't' :: r => (parseStrBody fuel r).map (fun p => ('\t' :: p.1, p.2))
      | 'u' :: h1 :: h2 :: h3 :: h4 :: r =>
        match hexVal h1, hexVal h2, hexVal h3, hexVal h4 with
        | some a, some b, some c, some d =>
          let v := ((a * 16 + b) * 16 + c) * 16 + d
          if 0xd800 ≤ v && v < 0xe000 then none
          else (parseStrBody fuel r).map (fun p => (Char.ofNat v :: p.1, p.2))
        | _, _, _, _ => none
      | _ => none
    | c :: rest =>
      if c.toNat < 32 then none
      else (parseStrBody fuel rest).map (fun p => (c :: p.1, p.2))

/-- Parse a run of decimal digits as a natural number (JSON integer
grammar: no leading zero unless the number is exactly `0`).  A
following `.`, `e` or `E` (fraction/exponent) is outside this model. -/
def parseNatNum (cs : List Char) : Option (Nat × List Char) :=
  let ds := cs.takeWhile Char.isDigit
  let rest := cs.dropWhile Char.isDigit
  if ds.isEmpty then none
  else if ds.length > 1 && ds.headD 'x' = '0' then none
  else
    match rest with
    | '.' :: _ => none
    | 'e' :: _ => none
    | 'E' :: _ => none
    | _ => some (ds.foldl (fun a c => a * 10 + (c.toNat - 48)) 0, rest)

mutual

/-- Parse one JSON value (leading whitespace allowed). -/
def parseVal : Nat → List Char → Option (Json × List Char)
  | 0, _ => none
  | fuel + 1, cs =>
    match skipWs cs with
    | 'n' :: 'u' :: 'l' :: 'l' :: rest => some (.jnull, rest)
    | 't' :: 'r' :: 'u' :: 'e' :: rest => some (.jbool true, rest)
    | 'f' :: 'a' :: 'l' :: 's' :: 'e' :: rest => some (.jbool false, rest)
    | '"' :: rest => (parseStrBody fuel rest).map (fun p => (.jstr (String.mk p.1), p.2))
    | '[' :: rest =>
      match skipWs rest with
      | ']' :: r2 => some (.jarr [], r2)
      | r2 => (parseItems fuel r2).map (fun p => (.jarr p.1, p.2))
    | '\x7b' :: rest =>
      match skipWs rest with
      | '\x7d' :: r2 => some (.jobj [], r2)
      | r2 => (parseMembers fuel r2).map (fun p => (.jobj p.1, p.2))
    | '-' :: rest => (parseNatNum rest).map (fun p => (.jnum (-(p.1 : Int)), p.2))
    | c :: rest =>
      if c.isDigit then (parseNatNum (c :: rest)).map (fun p => (.jnum (p.1 : Int), p.2))
      else none
    | [] => none

/-- Parse the elements of a non-empty JSON array (after `[`). -/
def parseItems : Nat → List Char → Option (List Json × List Char)
  | 0, _ => none
  | fuel + 1, cs =>
    match parseVal fuel cs with
    | none => none
    | some (v, rest) =>
      match skipWs rest with
      | ',' :: r2 => (parseItems fuel r2).map (fun p => (v :: p.1, p.2))
      | ']' :: r2 => some ([v], r2)
      | _ => none

/-- Parse the members of a non-empty JSON object (after the brace). -/
def parseMembers : Nat → List Char → Option (List (String × Json) × List Char)
  | 0, _ => none
  | fuel + 1, cs =>
    match skipWs cs with
    | '"' :: rest =>
      match parseStrBody fuel rest with
      | none => none
      | some (k, r1) =>
        match skipWs r1 with
        | ':' :: r2 =>
          match parseVal fuel r2 with
          | none => none
          | some (v, r3) =>
            match skipWs r3 with
            | ',' :: r4 => (parseMembers fuel r4).map (fun p => ((String.mk k, v) :: p.1, p.2))
            | '\x7d' :: r4 => some ([(String.mk k, v)], r4)
            | _ => none
        | _ => none
    | _ => none

end

/-- `json.loads`: parse a complete document, allowing surrounding
whitespace, rejecting trailing garbage.  The fuel bound comfortably
exceeds the number of parser steps any input of this length needs. -/
def json_loads (cs : List Char) : Option Json :=
  match parseVal (2 * cs.length + 8) cs with
  | some (v, rest) => if (skipWs rest).isEmpty then some v else none
  | none => none

/-! ## The pydantic models (bot/analysis.py lines 19-32) -/

/-- `Requirement` (pydantic model): `id` and `title` required, the
rest optional with defaults. -/
structure Requirement where
  id : String
  title : String
  description : Option String := none
  priority : Option String := none
  assignee : Option String := none
  estimated_hours : Option Int := none
  acceptance_criteria : List String := []
deriving Repr, DecidableEq

/-- `RequirementExtractionResponse` (pydantic model). -/
structure RequirementExtractionResponse where
  requirements : List Requirement
  document_summary : Option String := none
  total_requirements : Int
deriving Repr, DecidableEq

/-- Look a key up in a parsed JSON object.  A Python `dict` built from
the token stream keeps the last of any duplicate keys. -/
def getKey (fields : List (String × Json)) (k : String) : Option Json :=
  List.lookup k fields.reverse

/-- Validate an optional `str` field: absent or `null` gives `None`, a
string gives the string, anything else is a validation failure.
(Pydantic's numeric-to-string coercions are not modelled.) -/
def optStrField (fields : List (String × Json)) (k : String) : Option (Option String) :=
  match getKey fields k with
  | none => some none
  | some .jnull => some none
  | some (.jstr s) => some (some s)
  | some _ => none

/-- Validate an optional `int` field. -/
def optIntField (fields : List (String × Json)) (k : String) : Option (Option Int) :=
  match getKey fields k with
  | none => some none
  | some .jnull => some none
  | some (.jnum n) => some (some n)
  | some _ => none

/-- Validate a `List[str]` field with a `[]` default. -/
def strListField (fields : List (String × Json)) (k : String) : Option (List String) :=
  match getKey fields k with
  | none => some []
  | some (.jarr xs) =>
    xs.mapM (fun j => match j with | .jstr s => some s | _ => none)
  | some _ => none

/-- Validate one element of `requirements` against the `Requirement`
model: it must be an object with string `id` and `title`. -/
def validateRequirement (j : Json) : Option Requirement :=
  match j with
  | .jobj fields => do
    let i ← match getKey fields "id" with | some (.jstr s) => some s | _ => none
    let t ← match getKey fields "title" with | some (.jstr s) => some s | _ => none
    let d ← optStrField fields "description"
    let p ← optStrField fields "priority"
    let a ← optStrField fields "assignee"
    let e ← optIntField fields "estimated_hours"
    let ac ← strListField fields "acceptance_criteria"
    some ⟨i, t, d, p, a, e, ac⟩
  | _ => none

/-- Validate a JSON object against `RequirementExtractionResponse`:
`requirements` must be an array of valid requirement objects and
`total_requirements` an integer; extra keys are ignored. -/
def validateExtraction (fields : List (String × Json)) : Option RequirementExtractionResponse := do
  let rs ← match getKey fields "requirements" with
    | some (.jarr xs) => xs.mapM validateRequirement
    | _ => none
  let ds ← optStrField fields "document_summary"
  let tr ← match getKey fields "total_requirements" with
    | some (.jnum n) => some n
    | _ => none
  some ⟨rs, ds, tr⟩

/-! ## The parsing tail of `analyze_with_openai` (bot/analysis.py lines 98-112) -/

/-- The Python exceptions the parsing tail of `analyze_with_openai`
can raise.  `emptyOutput` and `jsonDecodeError` are explicit
`raise ValueError(...)` calls; `validationError` is pydantic's
`ValidationError`, a `ValueError` subclass; `typeError` is the
`TypeError` CPython raises for `RequirementExtractionResponse(**data)`
when `data` is not a mapping. -/
inductive PyErr where
  | emptyOutput
  | jsonDecodeError
  | validationError
  | typeError
deriving Repr, DecidableEq

/-- Lines 98-112 of `bot/analysis.py`: reject empty model output,
strip code fences, `json.loads` the rest (a failure raises
`ValueError`), then build `RequirementExtractionResponse(**data)` —
which raises `TypeError` if `data` is not a dict, and pydantic's
`ValidationError` if the shape is wrong. -/
def parseModelOutput (raw : List Char) : Except PyErr RequirementExtractionResponse :=
  if raw.isEmpty then .error .emptyOutput
  else
    match json_loads (stripCodeFences raw) with
    | none => .error .jsonDecodeError
    | some (.jobj fields) =>
      match validateExtraction fields with
      | some r => .ok r
      | none => .error .validationError
    | some _ => .error .typeError

/-! ## The pending-review cache (bot/slack_handlers.py) -/

/-- `create_jira_tasks` consumes plain requirement dicts
(`[r.dict() for r in analysis.requirements]`): every field is
accessed with `.get`, so each is modelled as optional.  `none` stands
for an absent key or a `None` value — both behave identically under
`.get` — while `some ""`/`some 0` are present falsy values. -/
structure ReqDict where
  id : Option String := none
  title : Option String := none
  description : Option String := none
  priority : Option String := none
  assignee : Option String := none
  estimated_hours : Option Int := none
deriving Repr, DecidableEq

/-- The in-memory `ANALYSIS_CACHE` dict, keys mapping to requirement
lists.  An association list models the dict; keys are unique in any
store produced by the put discipline. -/
abbrev Store := List (String × List ReqDict)

/-- `ANALYSIS_CACHE[cache_key] = [...]` (line 50): insert a fresh
key.  The key itself comes from `uuid.uuid4()` and is assumed fresh
(negligible collision probability); theorems carry that freshness as
a hypothesis. -/
def putCache (st : Store) (key : String) (reqs : List ReqDict) : Store :=
  (key, reqs) :: st

/-- `ANALYSIS_CACHE.pop(cache_key, None)` (line 101): atomically
remove and return the entry, or `none` if absent. -/
def takeCache : Store → String → Option (List ReqDict) × Store
  | [], _ => (none, [])
  | (k, v) :: rest, key =>
    if k = key then (some v, rest)
    else
      let p := takeCache rest key
      (p.1, (k, v) :: p.2)

/-- `n` back-to-back `take` calls on the same key: the sequential
interleaving of `n` concurrent callers, each `pop` being one atomic
dict operation under the CPython GIL.  Returns each caller's result
in schedule order. -/
def runTakes : Nat → Store → String → List (Option (List ReqDict)) × Store
  | 0, st, _ => ([], st)
  | n + 1, st, key =>
    let p := takeCache st key
    let q := runTakes n p.2 key
    (p.1 :: q.1, q.2)

/-- Number of bindings a key has in the store. -/
def keyCount (key : String) (st : Store) : Nat :=
  st.countP (fun e => e.1 = key)

/-! ## The Jira ticket-creation engine (bot/jira_integration.py) -/

/-- The configuration the engine reads (`Config.JIRA_URL`,
`Config.JIRA_PROJECT_KEY`).  Credentials do not affect any claim. -/
structure JiraConfig where
  jiraUrl : String
  projectKey : String
deriving Repr, DecidableEq

/-- `_PRIORITY_MAPPING` (lines 17-21). -/
def _PRIORITY_MAPPING : List (String × String) :=
  [("Critical", "High"), ("Major", "Medium"), ("Minor", "Low")]

/-- `_PRIORITY_MAPPING.get(raw_prio, raw_prio)` (line 68). -/
def priorityName (p : String) : String :=
  match _PRIORITY_MAPPING.lookup p with
  | some j => j
  | none => p

/-- `format_adf_description` (lines 24-37): the exact ADF document
dict built by the source. -/
def format_adf_description (text : String) : Json :=
  .jobj [("type", .jstr "doc"), ("version", .jnum 1),
         ("content", .jarr [
           .jobj [("type", .jstr "paragraph"),
                  ("content", .jarr [.jobj [("type", .jstr "text"), ("text", .jstr text)]])]])]

/-- `(Config.JIRA_URL or "").rstrip("/")`. -/
def rstripSlash (s : String) : String :=
  String.mk ((s.data.reverse.dropWhile (fun c => c = '/')).reverse)

/-- Python truthiness of `req.get(k)` for a string field: present and
non-empty. -/
def truthyStr (o : Option String) : Bool :=
  match o with
  | some s => !s.isEmpty
  | none => false

/-- Python truthiness of `req.get("estimated_hours")`: present and
non-zero. -/
def truthyInt (o : Option Int) : Bool :=
  match o with
  | some n => n != 0
  | none => false

/-- The `fields` payload dict (lines 57-77). -/
structure IssueFields where
  projectKey : String
  summary : String
  description : Json
  issuetype : String
  labels : List String
  priority : Option String := none
  assigneeAccountId : Option String := none
  timetrackingOriginalEstimate : Option String := none
deriving Repr

/-- Build the payload for one requirement (lines 57-79). -/
def buildFields (cfg : JiraConfig) (req : ReqDict) : IssueFields :=
  { projectKey := cfg.projectKey
    summary := req.title.getD "No title provided"
    description := format_adf_description (req.description.getD "")
    issuetype := "Task"
    labels := ["automated", "prd-generated"]
    priority :=
      if truthyStr req.priority then some (priorityName (req.priority.getD ""))
      else none
    assigneeAccountId := if truthyStr req.assignee then req.assignee else none
    timetrackingOriginalEstimate :=
      if truthyInt req.estimated_hours then
        some (toString (req.estimated_hours.getD 0) ++ "h")
      else none }

/-- `payload["fields"].pop("priority", None)` (line 127). -/
def removePriority (f : IssueFields) : IssueFields :=
  { f with priority := none }

/-- The JSON error body of a non-201, non-429 tracker response:
`{errorMessages: [...], errors: {field: message}}`. -/
structure ErrBody where
  errorMessages : List String
  errors : List (String × String)
deriving Repr, DecidableEq

/-- One tracker response, as the engine discriminates them:
HTTP 201 with `{key}`, HTTP 429 with an optional integer
`Retry-After` header, or any other status with an optional JSON error
body (`none` models a body `resp.json()` cannot parse). -/
inductive HttpResp where
  | r201 (issueKey : String)
  | r429 (retryAfter : Option Int)
  | rOther (code : Nat) (body : Option ErrBody)
deriving Repr, DecidableEq

/-- Failures that abort `create_jira_tasks`:
`httpError` is `resp.raise_for_status()` on a status ≥ 400;
`apiError` is `raise Exception(f"Jira API error: {messages} {field_errors}")`;
`apiError2` is the `raise Exception(f"Jira API error: {err2}")` after
the retry without priority also failed. -/
inductive EngineErr where
  | httpError (code : Nat)
  | apiError (messages : List String) (errors : List (String × String))
  | apiError2 (messages : List String) (errors : List (String × String))
deriving Repr, DecidableEq

/-- One requirement's result row (lines 90-94). -/
structure CreatedTicket where
  requirement_id : Option String
  jira_key : String
  jira_url : String
deriving Repr, DecidableEq

/-- Build one `created_tasks` entry. -/
def mkCreatedTicket (cfg : JiraConfig) (req : ReqDict) (key : String) : CreatedTicket :=
  { requirement_id := req.id
    jira_key := key
    jira_url := rstripSlash cfg.jiraUrl ++ "/browse/" ++ key }

/-- The engine's interaction state: how many responses were consumed,
how many sleeps happened, the recorded sleep durations, and the
payload of every POST issued, in order.  Jitter values are drawn from
a stream `jit : Nat → ℚ` standing for `random.random()`. -/
structure RunSt where
  respIx : Nat
  sleepIx : Nat
  waits : List ℚ
  posts : List IssueFields
deriving Repr

/-- Issue one POST: consume the next oracle response, record the
payload. -/
def postOnce (payload : IssueFields) (oracle : Nat → HttpResp) (st : RunSt) :
    HttpResp × RunSt :=
  (oracle st.respIx,
   { st with respIx := st.respIx + 1, posts := st.posts ++ [payload] })

/-- `"priority" in field_errors` (line 121). -/
def hasPriorityErr (errs : List (String × String)) : Bool :=
  errs.any (fun kv => kv.1 = "priority")

/-- `max_retries = 3` (line 82). -/
def maxRetries : Nat := 3

/-- Lines 126-149: the single retry with `priority` popped from the
payload.  A 201 yields a ticket; any other status parses the body —
a non-JSON body raises `HTTPError` via `raise_for_status()` when the
status is ≥ 400 (a 429 here has no parseable body in this model) —
and then raises `Exception(f"Jira API error: {err2}")`. -/
def priorityRetry (cfg : JiraConfig) (req : ReqDict) (payload2 : IssueFields)
    (oracle : Nat → HttpResp) (st : RunSt) : RunSt × Except EngineErr CreatedTicket :=
  let p := postOnce payload2 oracle st
  match p.1 with
  | .r201 key => (p.2, .ok (mkCreatedTicket cfg req key))
  | .r429 _ => (p.2, .error (.httpError 429))
  | .rOther code body =>
    match body with
    | none =>
      if 400 ≤ code then (p.2, .error (.httpError code))
      else (p.2, .error (.apiError2 [] []))
    | some b => (p.2, .error (.apiError2 b.errorMessages b.errors))

/-- The per-requirement create loop (lines 82-156),
`for attempt in range(max_retries + 1)`.  `remaining` counts the
attempts still allowed, starting at `maxRetries + 1`; the Python
guard `attempt < max_retries` is `remaining ≥ 2`, i.e. the `r429`
branch sleeps and retries unless this is the last attempt, in which
case `resp.raise_for_status()` raises.  The `remaining = 0` equation
is never reached from `maxRetries + 1`. -/
def createLoop (cfg : JiraConfig) (req : ReqDict) (payload : IssueFields)
    (oracle : Nat → HttpResp) (jit : Nat → ℚ) :
    Nat → RunSt → RunSt × Except EngineErr CreatedTicket
  | 0, st => (st, .error (.httpError 429))
  | remaining + 1, st =>
    let p := postOnce payload oracle st
    match p.1 with
    | .r201 key => (p.2, .ok (mkCreatedTicket cfg req key))
    | .r429 retryAfter =>
      if remaining = 0 then (p.2, .error (.httpError 429))
      else
        let wait : ℚ := ((retryAfter.getD 60 : Int) : ℚ) + jit p.2.sleepIx
        createLoop cfg req payload oracle jit remaining
          { p.2 with sleepIx := p.2.sleepIx + 1, waits := p.2.waits ++ [wait] }
    | .rOther code body =>
      match body with
      | none =>
        if 400 ≤ code then (p.2, .error (.httpError code))
        else (p.2, .error (.apiError [] []))
      | some b =>
        if hasPriorityErr b.errors then
          priorityRetry cfg req (removePriority payload) oracle p.2
        else (p.2, .error (.apiError b.errorMessages b.errors))

/-- The batch loop of `create_jira_tasks` (lines 53-158), instrumented:
returns the interaction state, the tickets created so far (in input
order), and the first terminal failure if one occurred.  In the
source the created list lives in the local `created_tasks`, which a
`raise` abandons. -/
def createRunT (cfg : JiraConfig) (oracle : Nat → HttpResp) (jit : Nat → ℚ) :
    List ReqDict → RunSt → RunSt × List CreatedTicket × Option EngineErr
  | [], st => (st, [], none)
  | req :: rest, st =>
    match createLoop cfg req (buildFields cfg req) oracle jit (maxRetries + 1) st with
    | (st1, .ok t) =>
      let r := createRunT cfg oracle jit rest st1
      (r.1, t :: r.2.1, r.2.2)
    | (st1, .error e) => (st1, [], some e)

/-- The initial interaction state. -/
def initRun : RunSt := ⟨0, 0, [], []⟩

/-- `create_jira_tasks(requirements)`: returns the created-ticket list,
or — when any requirement fails terminally — the raised exception,
with the partially built `created_tasks` list discarded, exactly as
an uncaught `raise` discards the local. -/
def create_jira_tasks (cfg : JiraConfig) (reqs : List ReqDict)
    (oracle : Nat → HttpResp) (jit : Nat → ℚ) : Except EngineErr (List CreatedTicket) :=
  match createRunT cfg oracle jit reqs initRun with
  | (_, ts, none) => .ok ts
  | (_, _, some e) => .error e

/-! ## The confirmation handler (bot/slack_handlers.py lines 96-127) -/

/-- What `handle_create_tasks` posts back to the channel:
the created-ticket lines, the "please re-upload" notice on a cache
miss, or the bare "Failed to create Jira tasks" text that the
`except` block posts — it carries no ticket data. -/
inductive SlackReply where
  | createdList (tickets : List CreatedTicket)
  | reupload
  | jiraFailed
deriving Repr

/-- `handle_create_tasks`: pop the cache key; on a miss post the
re-upload notice; otherwise run the engine, posting the ticket list
on success and the generic failure text if it raises. -/
def handle_create_tasks (st : Store) (key : String) (cfg : JiraConfig)
    (oracle : Nat → HttpResp) (jit : Nat → ℚ) : Store × SlackReply :=
  let p := takeCache st key
  match p.1 with
  | none => (p.2, .reupload)
  | some reqs =>
    match create_jira_tasks cfg reqs oracle jit with
    | .ok ts => (p.2, .createdList ts)
    | .error _ => (p.2, .jiraFailed)

/-- A requirement dict with present-but-falsy optional fields
(`priority=""`, `assignee=""`, `estimated_hours=0`) rewritten as if
those keys were absent.  Claim C10 states `buildFields` cannot tell
the difference. -/
def truthyNormalize (req : ReqDict) : ReqDict :=
  { req with
    priority := if req.priority = some "" then none else req.priority
    assignee := if req.assignee = some "" then none else req.assignee
    estimated_hours := if req.estimated_hours = some 0 then none else req.estimated_hours }

/-! ## Concrete fixtures used by witnesses and counterexamples -/

/-- A concrete configuration. -/
def cfg0 : JiraConfig := ⟨"https://jira.example.com/", "PRD"⟩

/-- A requirement dict without optional fields. -/
def rq1 : ReqDict := { id := some "R-1", title := some "First" }

/-- A requirement dict with a mapped priority. -/
def rq2 : ReqDict := { id := some "R-2", title := some "Second", priority := some "Critical" }

/-- A requirement dict with an unmapped priority. -/
def rq3 : ReqDict := { id := some "R-3", title := some "Third", priority := some "Urgent" }

/-- A fixed jitter stream (`random.random()` returning 0.5). -/
def jit0 : Nat → ℚ := fun _ => 1/2

/-- Responses: 429 (Retry-After 2), 429 (Retry-After 1), then 201. -/
def oracleA : Nat → HttpResp := fun n =>
  if n = 0 then .r429 (some 2) else if n = 1 then .r429 (some 1) else .r201 "PRD-9"

/-- Responses: always 429 without a Retry-After header. -/
def oracleB : Nat → HttpResp := fun _ => .r429 none

/-- Responses: a priority-field rejection, then 201. -/
def oracleC : Nat → HttpResp := fun n =>
  if n = 0 then .rOther 400 (some ⟨["bad prio"], [("priority", "invalid")]⟩)
  else .r201 "PRD-3"

/-- Responses: a priority-field rejection, then a general error. -/
def oracleD : Nat → HttpResp := fun n =>
  if n = 0 then .rOther 400 (some ⟨[], [("priority", "invalid")]⟩)
  else .rOther 400 (some ⟨["still bad"], []⟩)

/-- Responses: 201 for the first call, then a general error. -/
def oracleE : Nat → HttpResp := fun n =>
  if n = 0 then .r201 "PRD-1" else .rOther 400 (some ⟨["boom"], []⟩)

/-! ## Cache lemmas -/

theorem takeCache_absent (st : Store) (key : String) (h : keyCount key st = 0) :
    takeCache st key = (none, st) := by
  induction st with
  | nil => rfl
  | cons e rest ih =>
    obtain ⟨k, v⟩ := e
    simp only [keyCount, List.countP_cons] at h
    have hk : (k = key) = False := by
      by_contra hc
      simp at hc
      simp [hc] at h
    have hrest : keyCount key rest = 0 := by
      simp only [keyCount]
      omega
    simp [takeCache, hk, ih hrest]

theorem takeCache_unique (st : Store) (key : String) (v : List ReqDict)
    (h1 : keyCount key st = 1) (h2 : List.lookup key st = some v) :
    (takeCache st key).1 = some v ∧ keyCount key (takeCache st key).2 = 0 := by
  induction st with
  | nil => simp [List.lookup] at h2
  | cons e rest ih =>
    obtain ⟨k, w⟩ := e
    by_cases hk : k = key
    · subst hk
      have ht : takeCache ((k, w) :: rest) k = (some w, rest) := by
        simp [takeCache]
      have hw : w = v := by
        simpa [List.lookup] using h2
      have h0 : keyCount k rest = 0 := by
        have hc : keyCount k ((k, w) :: rest) = keyCount k rest + 1 := by
          simp [keyCount, List.countP_cons]
        omega
      rw [ht, hw]
      exact ⟨rfl, h0⟩
    · have h2' : List.lookup key rest = some v := by
        have hbeq : (key == k) = false := by
          simp [Ne.symm hk]
        simpa [List.lookup, hbeq] using h2
      have h1' : keyCount key rest = 1 := by
        simpa [keyCount, List.countP_cons, hk] using h1
      obtain ⟨ha, hb⟩ := ih h1' h2'
      have ht : takeCache ((k, w) :: rest) key =
          ((takeCache rest key).1, (k, w) :: (takeCache rest key).2) := by
        simp [takeCache, hk]
      rw [ht]
      exact ⟨ha, by simpa [keyCount, List.countP_cons, hk] using hb⟩

theorem runTakes_none (n : Nat) (st : Store) (key : String) (h : keyCount key st = 0) :
    runTakes n st key = (List.replicate n none, st) := by
  induction n with
  | zero => rfl
  | succ m ih =>
    simp [runTakes, takeCache_absent st key h, ih, List.replicate_succ]

/-! ## Claim theorems -/

/-- Claim C3: putting a requirement list into the pending-review cache
under a fresh key (`uuid.uuid4()`, assumed not to collide with a live
key) lets exactly one `take` with that key return the stored sequence,
restoring the previous store; a `take` with a consumed or never-issued
key returns `none`, upon which `handle_create_tasks` posts the
re-upload message. -/
theorem c3_put_take_once (st : Store) (key : String) (reqs : List ReqDict)
    (cfg : JiraConfig) (oracle : Nat → HttpResp) (jit : Nat → ℚ)
    (hfresh : keyCount key st = 0) :
    takeCache (putCache st key reqs) key = (some reqs, st)
  ∧ takeCache st key = (none, st)
  ∧ handle_create_tasks st key cfg oracle jit = (st, .reupload) := by
  have h1 : takeCache (putCache st key reqs) key = (some reqs, st) := by
    simp [putCache, takeCache]
  have h2 : takeCache st key = (none, st) := takeCache_absent st key hfresh
  refine ⟨h1, h2, ?_⟩
  simp [handle_create_tasks, h2]

/-- Witness for C3 at a concrete store and key. -/
theorem c3_put_take_once_witness :
    takeCache (putCache [] "k" [rq1]) "k" = (some [rq1], [])
  ∧ takeCache ([] : Store) "k" = (none, [])
  ∧ handle_create_tasks [] "k" cfg0 oracleE jit0 = ([], .reupload) :=
  c3_put_take_once [] "k" [rq1] cfg0 oracleE jit0 (by decide)

/-- Claim C8: `N` concurrent `take` calls racing on a live key — each
`dict.pop` being one atomic operation under the CPython interpreter
lock, so every interleaving is some sequential order of atomic takes —
give the stored requirement sequence to exactly one caller; the other
`N - 1` receive `none`. -/
theorem c8_concurrent_take (n : Nat) (st : Store) (key : String) (v : List ReqDict)
    (h1 : keyCount key st = 1) (h2 : List.lookup key st = some v) :
    (runTakes (n + 1) st key).1 = some v :: List.replicate n none := by
  obtain ⟨ha, hb⟩ := takeCache_unique st key v h1 h2
  simp only [runTakes]
  rw [ha, (runTakes_none n (takeCache st key).2 key hb)]

/-- Witness for C8: three racing takes on a singleton store. -/
theorem c8_concurrent_take_witness :
    (runTakes 3 [("k", [rq1])] "k").1 = some [rq1] :: List.replicate 2 none :=
  c8_concurrent_take 2 [("k", [rq1])] "k" [rq1] (by decide) (by decide)

/-- Claim C9: `create_jira_tasks` on an empty requirement list returns
an empty created list and issues no POST at all (the `for` loop body
never runs). -/
theorem c9_empty_batch (cfg : JiraConfig) (oracle : Nat → HttpResp) (jit : Nat → ℚ) :
    create_jira_tasks cfg [] oracle jit = .ok []
  ∧ (createRunT cfg oracle jit [] initRun).1.posts = [] :=
  ⟨rfl, rfl⟩

/-- Claim C10: presence of the optional payload fields is decided by
Python truthiness, not key presence: a requirement with
`estimated_hours = 0`, `priority = ""` or `assignee = ""` produces
exactly the payload of the same requirement with those keys absent. -/
theorem c10_truthiness_fields (cfg : JiraConfig) (req : ReqDict) :
    buildFields cfg req = buildFields cfg (truthyNormalize req) := by
  obtain ⟨i, t, d, p, a, e⟩ := req
  simp only [buildFields, truthyNormalize]
  congr 1
  · by_cases hp : p = some ""
    · subst hp
      have he : ("" : String).isEmpty = true := by decide
      simp [truthyStr, he]
    · simp [hp]
  · by_cases ha : a = some ""
    · subst ha
      have he : ("" : String).isEmpty = true := by decide
      simp [truthyStr, he]
    · simp [ha]
  · by_cases he : e = some 0
    · subst he
      simp [truthyInt]
    · simp [he]

/-- Claim C7: a requirement with a present, non-empty priority string
gets its payload priority name through `_PRIORITY_MAPPING.get(p, p)`:
`Critical to High`, `Major to Medium`, `Minor to Low`, and any other
value passes through unchanged. -/
theorem c7_priority_mapping (cfg : JiraConfig) (req : ReqDict) (p : String)
    (hp : req.priority = some p) (hne : p ≠ "") :
    (buildFields cfg req).priority = some (priorityName p)
  ∧ priorityName "Critical" = "High"
  ∧ priorityName "Major" = "Medium"
  ∧ priorityName "Minor" = "Low"
  ∧ (p ≠ "Critical" → p ≠ "Major" → p ≠ "Minor" → priorityName p = p) := by
  refine ⟨?_, rfl, rfl, rfl, ?_⟩
  · have hemp : p.isEmpty = false := by
      cases hpe : p.isEmpty
      · rfl
      · exact absurd ((String.isEmpty_iff p).mp hpe) hne
    simp [buildFields, truthyStr, hp, hemp]
  · intro h1 h2 h3
    have b1 : (p == "Critical") = false := by simpa using h1
    have b2 : (p == "Major") = false := by simpa using h2
    have b3 : (p == "Minor") = false := by simpa using h3
    simp [priorityName, _PRIORITY_MAPPING, List.lookup, b1, b2, b3]

/-- Witness for C7: an unmapped priority (`"Urgent"`) passes through
to the payload unchanged. -/
theorem c7_priority_mapping_witness :
    (buildFields cfg0 rq3).priority = some "Urgent" := by
  have h := c7_priority_mapping cfg0 rq3 "Urgent" rfl (by decide)
  have hpass := h.2.2.2.2 (by decide) (by decide) (by decide)
  rw [h.1, hpass]

/-- Counterexample to claim C4 as stated: with two requirements where
the first create returns 201 and the second fails terminally, the
engine raised after having created one ticket (visible in the
instrumented trace), yet `create_jira_tasks` returns only the error —
the partial created-ticket list is not part of its result — and the
confirmation handler posts the bare failure reply, which carries no
ticket data.  Nothing surfaces the partial list to the caller. -/
theorem c4_counterexample :
    create_jira_tasks cfg0 [rq1, rq2] oracleE jit0 = .error (.apiError ["boom"] [])
  ∧ (createRunT cfg0 oracleE jit0 [rq1, rq2] initRun).2.1 =
      [⟨some "R-1", "PRD-1", "https://jira.example.com/browse/PRD-1"⟩]
  ∧ (handle_create_tasks [("k", [rq1, rq2])] "k" cfg0 oracleE jit0).2 = .jiraFailed :=
  ⟨rfl, rfl, rfl⟩

/-- Claim C4 amended: when ticket creation ends with a terminal
failure, tickets already created for earlier requirements persist in
the tracker (their POSTs happened, and no delete is ever issued) but
the in-memory partial list is discarded by the raise: the caller is
surfaced only the generic failure reply, with no ticket data. -/
theorem c4_partial_discarded (st : Store) (key : String) (reqs : List ReqDict)
    (cfg : JiraConfig) (oracle : Nat → HttpResp) (jit : Nat → ℚ) (e : EngineErr)
    (htake : (takeCache st key).1 = some reqs)
    (hrun : create_jira_tasks cfg reqs oracle jit = .error e) :
    handle_create_tasks st key cfg oracle jit = ((takeCache st key).2, .jiraFailed) := by
  simp [handle_create_tasks, htake, hrun]

/-- Witness for C4's amended claim at the counterexample input. -/
theorem c4_partial_discarded_witness :
    handle_create_tasks [("k", [rq1, rq2])] "k" cfg0 oracleE jit0 =
      ((takeCache [("k", [rq1, rq2])] "k").2, .jiraFailed) :=
  c4_partial_discarded [("k", [rq1, rq2])] "k" [rq1, rq2] cfg0 oracleE jit0
    (.apiError ["boom"] []) rfl rfl

/-! ## Engine unfolding lemmas -/

/-- One unfolding of the create loop at a positive attempt count. -/
theorem createLoop_succ (cfg : JiraConfig) (req : ReqDict) (pl : IssueFields)
    (oracle : Nat → HttpResp) (jit : Nat → ℚ) (n : Nat) (st : RunSt) :
    createLoop cfg req pl oracle jit (n + 1) st =
      (match oracle st.respIx with
       | .r201 key =>
         ({ st with respIx := st.respIx + 1, posts := st.posts ++ [pl] },
          .ok (mkCreatedTicket cfg req key))
       | .r429 retryAfter =>
         if n = 0 then
           ({ st with respIx := st.respIx + 1, posts := st.posts ++ [pl] },
            .error (.httpError 429))
         else
           createLoop cfg req pl oracle jit n
             { st with respIx := st.respIx + 1, posts := st.posts ++ [pl],
                       sleepIx := st.sleepIx + 1,
                       waits := st.waits ++ [((retryAfter.getD 60 : Int) : ℚ) + jit st.sleepIx] }
       | .rOther code body =>
         match body with
         | none =>
           if 400 ≤ code then
             ({ st with respIx := st.respIx + 1, posts := st.posts ++ [pl] },
              .error (.httpError code))
           else
             ({ st with respIx := st.respIx + 1, posts := st.posts ++ [pl] },
              .error (.apiError [] []))
         | some b =>
           if hasPriorityErr b.errors then
             priorityRetry cfg req (removePriority pl) oracle
               { st with respIx := st.respIx + 1, posts := st.posts ++ [pl] }
           else
             ({ st with respIx := st.respIx + 1, posts := st.posts ++ [pl] },
              .error (.apiError b.errorMessages b.errors))) := rfl

/-- Unfolding of the one-shot retry without the priority field. -/
theorem priorityRetry_eq (cfg : JiraConfig) (req : ReqDict) (pl2 : IssueFields)
    (oracle : Nat → HttpResp) (st : RunSt) :
    priorityRetry cfg req pl2 oracle st =
      (match oracle st.respIx with
       | .r201 key =>
         ({ st with respIx := st.respIx + 1, posts := st.posts ++ [pl2] },
          .ok (mkCreatedTicket cfg req key))
       | .r429 _ =>
         ({ st with respIx := st.respIx + 1, posts := st.posts ++ [pl2] },
          .error (.httpError 429))
       | .rOther code body =>
         match body with
         | none =>
           if 400 ≤ code then
             ({ st with respIx := st.respIx + 1, posts := st.posts ++ [pl2] },
              .error (.httpError code))
           else
             ({ st with respIx := st.respIx + 1, posts := st.posts ++ [pl2] },
              .error (.apiError2 [] []))
         | some b =>
           ({ st with respIx := st.respIx + 1, posts := st.posts ++ [pl2] },
            .error (.apiError2 b.errorMessages b.errors))) := rfl

/-- A 429 on any attempt except the last: sleep `Retry-After` (default
60) plus jitter, then retry with one fewer attempt left. -/
theorem createLoop_429_retry (cfg : JiraConfig) (req : ReqDict) (pl : IssueFields)
    (oracle : Nat → HttpResp) (jit : Nat → ℚ) (n : Nat) (st : RunSt) (a : Option Int)
    (h : oracle st.respIx = .r429 a) (hn : n ≠ 0) :
    createLoop cfg req pl oracle jit (n + 1) st =
      createLoop cfg req pl oracle jit n
        ⟨st.respIx + 1, st.sleepIx + 1,
         st.waits ++ [((a.getD 60 : Int) : ℚ) + jit st.sleepIx], st.posts ++ [pl]⟩ := by
  rw [createLoop_succ, h]
  simp [hn]

/-- A 429 on the final attempt raises `HTTPError` via
`raise_for_status`. -/
theorem createLoop_429_raise (cfg : JiraConfig) (req : ReqDict) (pl : IssueFields)
    (oracle : Nat → HttpResp) (jit : Nat → ℚ) (st : RunSt) (a : Option Int)
    (h : oracle st.respIx = .r429 a) :
    createLoop cfg req pl oracle jit (0 + 1) st =
      (⟨st.respIx + 1, st.sleepIx, st.waits, st.posts ++ [pl]⟩,
       .error (.httpError 429)) := by
  rw [createLoop_succ, h]
  simp

/-- A 201 on any attempt yields the created ticket. -/
theorem createLoop_201 (cfg : JiraConfig) (req : ReqDict) (pl : IssueFields)
    (oracle : Nat → HttpResp) (jit : Nat → ℚ) (n : Nat) (st : RunSt) (key : String)
    (h : oracle st.respIx = .r201 key) :
    createLoop cfg req pl oracle jit (n + 1) st =
      (⟨st.respIx + 1, st.sleepIx, st.waits, st.posts ++ [pl]⟩,
       .ok (mkCreatedTicket cfg req key)) := by
  rw [createLoop_succ, h]

/-- Claim C1: a non-201, non-429 response whose JSON `errors` map
contains `"priority"` triggers exactly one immediate retry with the
`priority` field popped from the payload: a 201 on the retry yields
the ticket; any other retry outcome is terminal, aborting the batch
with no ticket for that requirement.  A JSON error body without
`"priority"` is terminal immediately, with a single POST issued. -/
theorem c1_priority_field_retry (cfg : JiraConfig) (req : ReqDict)
    (oracle : Nat → HttpResp) (jit : Nat → ℚ) (st : RunSt) (code : Nat) (b : ErrBody)
    (h0 : oracle st.respIx = .rOther code (some b)) :
    (hasPriorityErr b.errors = true →
      (∀ key, oracle (st.respIx + 1) = .r201 key →
        createLoop cfg req (buildFields cfg req) oracle jit (maxRetries + 1) st =
          ({ st with respIx := st.respIx + 2,
                     posts := st.posts ++ [buildFields cfg req,
                                           removePriority (buildFields cfg req)] },
           .ok (mkCreatedTicket cfg req key)))
      ∧ (∀ c2 b2, oracle (st.respIx + 1) = .rOther c2 (some b2) →
          createLoop cfg req (buildFields cfg req) oracle jit (maxRetries + 1) st =
            ({ st with respIx := st.respIx + 2,
                       posts := st.posts ++ [buildFields cfg req,
                                             removePriority (buildFields cfg req)] },
             .error (.apiError2 b2.errorMessages b2.errors))
          ∧ ∀ rest, createRunT cfg oracle jit (req :: rest) st =
              ({ st with respIx := st.respIx + 2,
                         posts := st.posts ++ [buildFields cfg req,
                                               removePriority (buildFields cfg req)] },
               [], some (.apiError2 b2.errorMessages b2.errors))))
  ∧ (hasPriorityErr b.errors = false →
      createLoop cfg req (buildFields cfg req) oracle jit (maxRetries + 1) st =
        ({ st with respIx := st.respIx + 1, posts := st.posts ++ [buildFields cfg req] },
         .error (.apiError b.errorMessages b.errors))) := by
  constructor
  · intro hpr
    constructor
    · intro key hk
      rw [createLoop_succ, h0]
      simp only [hpr, if_true]
      rw [priorityRetry_eq]
      simp only [RunSt.mk.injEq]
      rw [hk]
      simp [List.append_assoc]
    · intro c2 b2 hk
      have hloop : createLoop cfg req (buildFields cfg req) oracle jit (maxRetries + 1) st =
          ({ st with respIx := st.respIx + 2,
                     posts := st.posts ++ [buildFields cfg req,
                                           removePriority (buildFields cfg req)] },
           .error (.apiError2 b2.errorMessages b2.errors)) := by
        rw [createLoop_succ, h0]
        simp only [hpr, if_true]
        rw [priorityRetry_eq, hk]
        simp [List.append_assoc]
      refine ⟨hloop, ?_⟩
      intro rest
      simp only [createRunT, hloop]
  · intro hpr
    rw [createLoop_succ, h0]
    simp [hpr]

/-- Witness for C1: a priority rejection followed by a 201 — the
retry succeeds and the two POSTs carry the payload with and then
without the priority field. -/
theorem c1_priority_field_retry_witness :
    createLoop cfg0 rq2 (buildFields cfg0 rq2) oracleC jit0 (maxRetries + 1) initRun =
      ({ initRun with respIx := 2,
                      posts := [buildFields cfg0 rq2,
                                removePriority (buildFields cfg0 rq2)] },
       .ok (mkCreatedTicket cfg0 rq2 "PRD-3"))
  ∧ (buildFields cfg0 rq2).priority = some "High"
  ∧ (removePriority (buildFields cfg0 rq2)).priority = none := by
  have h := (c1_priority_field_retry cfg0 rq2 oracleC jit0 initRun 400
      ⟨["bad prio"], [("priority", "invalid")]⟩ rfl).1 (by decide)
  exact ⟨h.1 "PRD-3" rfl, rfl, rfl⟩

/-- Claim C2: on a 429 the engine reads the integer `Retry-After`
header (60 if absent), sleeps that duration plus the next jitter
draw, and retries the same payload, at most `maxRetries = 3` times
per requirement; a 429 on the final attempt raises, aborting the
batch.  Stated for the spec's scenario (two 429s then 201), the
absent-header fallback, exhaustion with the batch abort, and the
jitter bound. -/
theorem c2_rate_limit_retry (cfg : JiraConfig) (req : ReqDict)
    (oracle : Nat → HttpResp) (jit : Nat → ℚ) (st : RunSt) :
    (∀ (a1 a2 : Int) (key : String),
      oracle st.respIx = .r429 (some a1) →
      oracle (st.respIx + 1) = .r429 (some a2) →
      oracle (st.respIx + 2) = .r201 key →
      createLoop cfg req (buildFields cfg req) oracle jit (maxRetries + 1) st =
        ({ st with respIx := st.respIx + 3, sleepIx := st.sleepIx + 2,
                   waits := st.waits ++ [(a1 : ℚ) + jit st.sleepIx,
                                         (a2 : ℚ) + jit (st.sleepIx + 1)],
                   posts := st.posts ++ [buildFields cfg req, buildFields cfg req,
                                         buildFields cfg req] },
         .ok (mkCreatedTicket cfg req key)))
  ∧ (∀ key, oracle st.respIx = .r429 none → oracle (st.respIx + 1) = .r201 key →
      createLoop cfg req (buildFields cfg req) oracle jit (maxRetries + 1) st =
        ({ st with respIx := st.respIx + 2, sleepIx := st.sleepIx + 1,
                   waits := st.waits ++ [((60 : Int) : ℚ) + jit st.sleepIx],
                   posts := st.posts ++ [buildFields cfg req, buildFields cfg req] },
         .ok (mkCreatedTicket cfg req key)))
  ∧ (∀ (a1 a2 a3 a4 : Int),
      oracle st.respIx = .r429 (some a1) →
      oracle (st.respIx + 1) = .r429 (some a2) →
      oracle (st.respIx + 2) = .r429 (some a3) →
      oracle (st.respIx + 3) = .r429 (some a4) →
      createLoop cfg req (buildFields cfg req) oracle jit (maxRetries + 1) st =
        ({ st with respIx := st.respIx + 4, sleepIx := st.sleepIx + 3,
                   waits := st.waits ++ [(a1 : ℚ) + jit st.sleepIx,
                                         (a2 : ℚ) + jit (st.sleepIx + 1),
                                         (a3 : ℚ) + jit (st.sleepIx + 2)],
                   posts := st.posts ++ [buildFields cfg req, buildFields cfg req,
                                         buildFields cfg req, buildFields cfg req] },
         .error (.httpError 429))
      ∧ ∀ rest, (createRunT cfg oracle jit (req :: rest) st).2 =
          ([], some (.httpError 429)))
  ∧ (∀ (j : ℚ) (a : Int), 0 ≤ j → j < 1 →
      (a : ℚ) ≤ (a : ℚ) + j ∧ (a : ℚ) + j < (a : ℚ) + 1) := by
  refine ⟨?_, ?_, ?_, ?_⟩
  · intro a1 a2 key h0 h1 h2
    refine ((createLoop_429_retry cfg req (buildFields cfg req) oracle jit maxRetries st
        (some a1) h0 (by decide)).trans
      ((createLoop_429_retry cfg req (buildFields cfg req) oracle jit 2
        ⟨st.respIx + 1, st.sleepIx + 1,
         st.waits ++ [(a1 : ℚ) + jit st.sleepIx], st.posts ++ [buildFields cfg req]⟩
        (some a2) h1 (by decide)).trans
      ((createLoop_201 cfg req (buildFields cfg req) oracle jit 1
        ⟨st.respIx + 1 + 1, st.sleepIx + 1 + 1,
         st.waits ++ [(a1 : ℚ) + jit st.sleepIx] ++ [(a2 : ℚ) + jit (st.sleepIx + 1)],
         st.posts ++ [buildFields cfg req] ++ [buildFields cfg req]⟩
        key h2).trans ?_)))
    simp [List.append_assoc, RunSt.mk.injEq]
  · intro key h0 h1
    refine ((createLoop_429_retry cfg req (buildFields cfg req) oracle jit maxRetries st
        none h0 (by decide)).trans
      ((createLoop_201 cfg req (buildFields cfg req) oracle jit 2
        ⟨st.respIx + 1, st.sleepIx + 1,
         st.waits ++ [((60 : Int) : ℚ) + jit st.sleepIx], st.posts ++ [buildFields cfg req]⟩
        key h1).trans ?_))
    simp [List.append_assoc, RunSt.mk.injEq]
  · intro a1 a2 a3 a4 h0 h1 h2 h3
    have hloop : createLoop cfg req (buildFields cfg req) oracle jit (maxRetries + 1) st =
        ({ st with respIx := st.respIx + 4, sleepIx := st.sleepIx + 3,
                   waits := st.waits ++ [(a1 : ℚ) + jit st.sleepIx,
                                         (a2 : ℚ) + jit (st.sleepIx + 1),
                                         (a3 : ℚ) + jit (st.sleepIx + 2)],
                   posts := st.posts ++ [buildFields cfg req, buildFields cfg req,
                                         buildFields cfg req, buildFields cfg req] },
         .error (.httpError 429)) := by
      refine ((createLoop_429_retry cfg req (buildFields cfg req) oracle jit maxRetries st
          (some a1) h0 (by decide)).trans
        ((createLoop_429_retry cfg req (buildFields cfg req) oracle jit 2
          ⟨st.respIx + 1, st.sleepIx + 1,
           st.waits ++ [(a1 : ℚ) + jit st.sleepIx], st.posts ++ [buildFields cfg req]⟩
          (some a2) h1 (by decide)).trans
        ((createLoop_429_retry cfg req (buildFields cfg req) oracle jit 1
          ⟨st.respIx + 1 + 1, st.sleepIx + 1 + 1,
           st.waits ++ [(a1 : ℚ) + jit st.sleepIx] ++ [(a2 : ℚ) + jit (st.sleepIx + 1)],
           st.posts ++ [buildFields cfg req] ++ [buildFields cfg req]⟩
          (some a3) h2 (by decide)).trans
        ((createLoop_429_raise cfg req (buildFields cfg req) oracle jit
          ⟨st.respIx + 1 + 1 + 1, st.sleepIx + 1 + 1 + 1,
           st.waits ++ [(a1 : ℚ) + jit st.sleepIx] ++ [(a2 : ℚ) + jit (st.sleepIx + 1)]
                    ++ [(a3 : ℚ) + jit (st.sleepIx + 1 + 1)],
           st.posts ++ [buildFields cfg req] ++ [buildFields cfg req]
                    ++ [buildFields cfg req]⟩
          (some a4) h3).trans ?_))))
      simp [List.append_assoc, RunSt.mk.injEq]
    refine ⟨hloop, ?_⟩
    intro rest
    simp only [createRunT, hloop]
  · intro j a hj0 hj1
    constructor <;> linarith

/-- Witness for C2 at the spec's scenario [429 (Retry-After 2),
429 (Retry-After 1), 201] with jitter 1/2: the engine waits 5/2 then
3/2 seconds and succeeds on the third POST. -/
theorem c2_rate_limit_retry_witness :
    createLoop cfg0 rq1 (buildFields cfg0 rq1) oracleA jit0 (maxRetries + 1) initRun =
      ({ initRun with respIx := initRun.respIx + 3, sleepIx := initRun.sleepIx + 2,
                      waits := initRun.waits ++ [((2 : Int) : ℚ) + jit0 initRun.sleepIx,
                                                 ((1 : Int) : ℚ) + jit0 (initRun.sleepIx + 1)],
                      posts := initRun.posts ++ [buildFields cfg0 rq1, buildFields cfg0 rq1,
                                                 buildFields cfg0 rq1] },
       .ok (mkCreatedTicket cfg0 rq1 "PRD-9"))
  ∧ ((2 : Int) : ℚ) + jit0 initRun.sleepIx = 5/2
  ∧ ((1 : Int) : ℚ) + jit0 (initRun.sleepIx + 1) = 3/2 := by
  refine ⟨(c2_rate_limit_retry cfg0 rq1 oracleA jit0 initRun).1 2 1 "PRD-9" rfl rfl rfl,
          ?_, ?_⟩ <;> norm_num [jit0]

/-- Counterexample to claim C5 as stated: `"[]"` is valid JSON that
violates the required shape, yet the parser does not fail with the
typed `MalformedModelOutput` `ValueError` — CPython raises an
untyped `TypeError` from `RequirementExtractionResponse(**data)`
because a list cannot be splatted as keyword arguments.  So an
unstructured error escapes for non-object JSON. -/
theorem c5_counterexample :
    json_loads (stripCodeFences ("[]".toList)) = some (.jarr [])
  ∧ parseModelOutput ("[]".toList) = .error .typeError
  ∧ PyErr.typeError ≠ PyErr.jsonDecodeError
  ∧ PyErr.typeError ≠ PyErr.validationError :=
  ⟨rfl, rfl, by decide, by decide⟩

/-- Claim C5 amended: for non-empty model output, a text that is not
valid JSON after fence-stripping fails with the typed JSON
`ValueError`, and a JSON object that violates the model's field
constraints fails with pydantic's `ValidationError` (also a
`ValueError`) — but a text parsing to a non-object JSON value escapes
with an untyped `TypeError`, so the "never raises an unstructured
error" guarantee holds only for inputs whose JSON value is an object
or which fail to parse. -/
theorem c5_typed_failures (s : List Char) (hne : s ≠ []) :
    (json_loads (stripCodeFences s) = none → parseModelOutput s = .error .jsonDecodeError)
  ∧ (∀ fields, json_loads (stripCodeFences s) = some (.jobj fields) →
      parseModelOutput s ≠ .error .typeError
      ∧ parseModelOutput s ≠ .error .emptyOutput
      ∧ parseModelOutput s ≠ .error .jsonDecodeError)
  ∧ (∀ fields, json_loads (stripCodeFences s) = some (.jobj fields) →
      validateExtraction fields = none → parseModelOutput s = .error .validationError)
  ∧ (∀ v, json_loads (stripCodeFences s) = some v → (∀ fields, v ≠ .jobj fields) →
      parseModelOutput s = .error .typeError) := by
  have hE : s.isEmpty = false := by
    cases s
    · exact absurd rfl hne
    · rfl
  refine ⟨?_, ?_, ?_, ?_⟩
  · intro h
    simp [parseModelOutput, hE, h]
  · intro fields h
    cases hv : validateExtraction fields with
    | none => simp [parseModelOutput, hE, h, hv]
    | some r => simp [parseModelOutput, hE, h, hv]
  · intro fields h hv
    simp [parseModelOutput, hE, h, hv]
  · intro v h hv
    cases v with
    | jobj fields => exact absurd rfl (hv fields)
    | jnull => simp [parseModelOutput, hE, h]
    | jbool b => simp [parseModelOutput, hE, h]
    | jnum n => simp [parseModelOutput, hE, h]
    | jstr t => simp [parseModelOutput, hE, h]
    | jarr xs => simp [parseModelOutput, hE, h]

/-- Witness for the amended C5: `"{}"` parses to an object missing
`requirements`, and the failure is the typed pydantic
`ValidationError`. -/
theorem c5_typed_failures_witness :
    parseModelOutput ("\x7b\x7d".toList) = .error .validationError :=
  (c5_typed_failures ("\x7b\x7d".toList) (by decide)).2.2.1 [] rfl rfl

theorem joinNL_cons (x : List Char) (L : List (List Char)) (h : L ≠ []) :
    joinNL (x :: L) = x ++ '\n' :: joinNL L := by
  cases L with
  | nil => exact absurd rfl h
  | cons y r => rfl

theorem go_break_step (c c2 : Char) (rest acc : List Char)
    (h1 : c ≠ '\r') (h2 : isLineBreak c = true) :
    pySplitlinesGo (c :: c2 :: rest) acc = acc.reverse :: pySplitlinesGo (c2 :: rest) [] := by
  rw [pySplitlinesGo.eq_def]
  simp [h1, h2]

theorem go_plain_step (c c2 : Char) (rest acc : List Char)
    (h : isLineBreak c = false) :
    pySplitlinesGo (c :: c2 :: rest) acc = pySplitlinesGo (c2 :: rest) (c :: acc) := by
  have hcr : c ≠ '\r' := by
    intro e
    subst e
    simp [isLineBreak] at h
  rw [pySplitlinesGo.eq_def]
  simp [h, hcr]

theorem go_noBreak (r : List Char) :
    ∀ acc : List Char, (∀ c ∈ r, isLineBreak c = false) →
    pySplitlinesGo r acc = [acc.reverse ++ r] := by
  induction r with
  | nil =>
    intro acc h
    simp [pySplitlinesGo]
  | cons c r' ih =>
    intro acc h
    have hc : isLineBreak c = false := h c (by simp)
    cases r' with
    | nil =>
      simp [pySplitlinesGo, hc]
    | cons c2 r'' =>
      rw [go_plain_step c c2 r'' acc hc]
      rw [ih (c :: acc) (fun x hx => h x (by simp [hx]))]
      simp

theorem go_firstLine (a cs : List Char) (hcs : cs ≠ []) :
    ∀ acc : List Char, (∀ c ∈ a, isLineBreak c = false) →
    pySplitlinesGo (a ++ '\n' :: cs) acc = (acc.reverse ++ a) :: pySplitlinesGo cs [] := by
  induction a with
  | nil =>
    intro acc h
    obtain ⟨x, xs, rfl⟩ : ∃ x xs, cs = x :: xs := by
      cases cs with
      | nil => exact absurd rfl hcs
      | cons x xs => exact ⟨x, xs, rfl⟩
    rw [List.nil_append]
    rw [go_break_step '\n' x xs acc (by decide) (by decide)]
    simp
  | cons c a' ih =>
    intro acc h
    have hc : isLineBreak c = false := h c (by simp)
    obtain ⟨x, xs, he⟩ : ∃ x xs, a' ++ '\n' :: cs = x :: xs := by
      cases a' with
      | nil => exact ⟨'\n', cs, rfl⟩
      | cons y ys => exact ⟨y, ys ++ '\n' :: cs, rfl⟩
    rw [List.cons_append, he]
    rw [go_plain_step c x xs acc hc]
    rw [← he]
    rw [ih (c :: acc) (fun z hz => h z (by simp [hz]))]
    simp

theorem go_body (s : List Char) :
    ∀ acc : List Char, (∀ c ∈ s, isLineBreak c = true → c = '\n') →
    ∃ L, L ≠ [] ∧
      pySplitlinesGo (s ++ '\n' :: ['`', '`', '`']) acc = L ++ [['`', '`', '`']] ∧
      joinNL L = acc.reverse ++ s := by
  induction s with
  | nil =>
    intro acc h
    refine ⟨[acc.reverse], by simp, ?_, by simp [joinNL]⟩
    rw [List.nil_append]
    rw [go_break_step '\n' '`' ['`', '`'] acc (by decide) (by decide)]
    rw [go_noBreak ('`' :: ['`', '`']) [] (by decide)]
    simp [joinNL]
  | cons c s' ih =>
    intro acc h
    have hs' : ∀ x ∈ s', isLineBreak x = true → x = '\n' :=
      fun x hx => h x (by simp [hx])
    obtain ⟨x, xs, he⟩ : ∃ x xs, s' ++ '\n' :: ['`', '`', '`'] = x :: xs := by
      cases s' with
      | nil => exact ⟨'\n', ['`', '`', '`'], rfl⟩
      | cons y ys => exact ⟨y, ys ++ '\n' :: ['`', '`', '`'], rfl⟩
    by_cases hc : c = '\n'
    · subst hc
      obtain ⟨L', h1, h2, h3⟩ := ih [] hs'
      refine ⟨acc.reverse :: L', by simp, ?_, ?_⟩
      · rw [List.cons_append, he]
        rw [go_break_step '\n' x xs acc (by decide) (by decide)]
        rw [← he, h2]
        rfl
      · rw [joinNL_cons acc.reverse L' h1, h3]
        simp
    · have hb : isLineBreak c = false := by
        cases hbr : isLineBreak c
        · rfl
        · exact absurd (h c (by simp) hbr) hc
      obtain ⟨L', h1, h2, h3⟩ := ih (c :: acc) hs'
      refine ⟨L', h1, ?_, ?_⟩
      · rw [List.cons_append, he]
        rw [go_plain_step c x xs acc hb]
        rw [← he, h2]
      · rw [h3]
        simp

theorem pyStrip_eq_self (l : List Char)
    (h1 : ∀ c, l.head? = some c → pyIsSpace c = false)
    (h2 : ∀ c, l.getLast? = some c → pyIsSpace c = false) :
    pyStrip l = l := by
  unfold pyStrip
  have hd : l.dropWhile pyIsSpace = l := by
    cases l with
    | nil => rfl
    | cons c t =>
      rw [List.dropWhile_cons]
      simp [h1 c rfl]
  rw [hd]
  have hr : l.reverse.dropWhile pyIsSpace = l.reverse := by
    cases hrev : l.reverse with
    | nil => rfl
    | cons c t =>
      rw [List.dropWhile_cons]
      have hlast : l.getLast? = some c := by
        rw [← List.head?_reverse, hrev]
        rfl
      simp [h2 c hlast]
  rw [hr, List.reverse_reverse]

theorem stripCodeFences_wrap (f s : List Char)
    (hf : startsFence f = true) (hfb : ∀ c ∈ f, isLineBreak c = false)
    (hs : ∀ c ∈ s, isLineBreak c = true → c = '\n') :
    stripCodeFences (f ++ '\n' :: (s ++ '\n' :: ['`', '`', '`'])) = s := by
  obtain ⟨f3, rfl⟩ : ∃ f3, f = '`' :: f3 := by
    cases f with
    | nil => simp [startsFence, List.isPrefixOf] at hf
    | cons c rest =>
      simp only [startsFence, List.isPrefixOf, Bool.and_eq_true, beq_iff_eq] at hf
      exact ⟨rest, by rw [hf.1]⟩
  set w : List Char := ('`' :: f3) ++ '\n' :: (s ++ '\n' :: ['`', '`', '`']) with hw
  have hwcons : w = '`' :: (f3 ++ '\n' :: (s ++ '\n' :: ['`', '`', '`'])) := by
    rw [hw, List.cons_append]
  have hconcat : w = ('`' :: (f3 ++ '\n' :: (s ++ ['\n', '`', '`']))) ++ ['`'] := by
    rw [hwcons]
    simp
  have hstrip : pyStrip w = w := by
    apply pyStrip_eq_self
    · intro c hc
      rw [hwcons] at hc
      simp only [List.head?] at hc
      cases hc
      decide
    · intro c hc
      rw [hconcat, List.getLast?_concat] at hc
      cases hc
      decide
  have hne : w ≠ [] := by
    rw [hwcons]
    simp
  have hwE : w.isEmpty = false := by
    rw [hwcons]
    rfl
  have hlines : pySplitlines w =
      ('`' :: f3) :: pySplitlinesGo (s ++ '\n' :: ['`', '`', '`']) [] := by
    simp only [pySplitlines, hwE, Bool.false_eq_true, if_false]
    rw [hw]
    rw [go_firstLine ('`' :: f3) (s ++ '\n' :: ['`', '`', '`']) (by simp) [] hfb]
    simp
  obtain ⟨L, hLne, hLeq, hLjoin⟩ := go_body s [] hs
  rw [stripCodeFences, hstrip, hlines, hLeq]
  rw [show dropLeadFence (('`' :: f3) :: (L ++ [['`', '`', '`']])) = L ++ [['`', '`', '`']] by
    simp [dropLeadFence, hf]]
  rw [show dropTailFence (L ++ [['`', '`', '`']]) = L by
    simp [dropTailFence, List.getLast?_concat, startsFence, List.isPrefixOf]]
  simpa using hLjoin

/-- Claim C6 amended: for a body `s` whose line breaks are all `\n`,
which fence-stripping leaves unchanged (no surrounding whitespace and
no fence-like first/last line — any pretty-printed JSON qualifies) and
which the Parser accepts, parsing the text wrapped in leading and
trailing code-fence lines yields the same ExtractionResult, and
fence-stripping the wrapped text twice equals stripping it once.  The
counterexample shows the unrestricted idempotence conjunct of C6 is
false when the fenced body carries leading whitespace. -/
theorem c6_fence_roundtrip (f s : List Char) (r : RequirementExtractionResponse)
    (hf : startsFence f = true) (hfb : ∀ c ∈ f, isLineBreak c = false)
    (hs : ∀ c ∈ s, isLineBreak c = true → c = '\n')
    (hstrip : stripCodeFences s = s)
    (hok : parseModelOutput s = .ok r) :
    parseModelOutput (f ++ '\n' :: (s ++ '\n' :: ['`', '`', '`'])) = .ok r
  ∧ stripCodeFences (stripCodeFences (f ++ '\n' :: (s ++ '\n' :: ['`', '`', '`'])))
      = stripCodeFences (f ++ '\n' :: (s ++ '\n' :: ['`', '`', '`'])) := by
  have hw := stripCodeFences_wrap f s hf hfb hs
  have hsne : s ≠ [] := by
    intro e
    subst e
    simp [parseModelOutput] at hok
  have hsE : s.isEmpty = false := by
    cases s with
    | nil => exact absurd rfl hsne
    | cons a b => rfl
  have hwE : (f ++ '\n' :: (s ++ '\n' :: ['`', '`', '`'])).isEmpty = false := by
    cases f with
    | nil => simp [startsFence, List.isPrefixOf] at hf
    | cons a b => rfl
  have key : parseModelOutput (f ++ '\n' :: (s ++ '\n' :: ['`', '`', '`'])) =
      parseModelOutput s := by
    simp only [parseModelOutput, hwE, hsE, Bool.false_eq_true, if_false, hw, hstrip]
  refine ⟨key.trans hok, ?_⟩
  rw [hw]
  exact hstrip

/-- Witness for the amended C6 at a concrete fenced document. -/
theorem c6_fence_roundtrip_witness :
    parseModelOutput ("```json".toList ++ '\n' ::
        ("\x7b\"requirements\": [], \"total_requirements\": 0\x7d".toList ++ '\n' :: ['`', '`', '`'])) =
      .ok ⟨[], none, 0⟩ :=
  (c6_fence_roundtrip "```json".toList
    "\x7b\"requirements\": [], \"total_requirements\": 0\x7d".toList ⟨[], none, 0⟩
    (by decide) (by decide) (by decide) (by decide) (by rfl)).1

/-- Counterexample to claim C6 as stated: a fence-wrapped body whose
JSON line carries one leading space is valid JSON matching the shape
(the Parser accepts the whole text), yet fence-stripping is not
idempotent on it — the second strip also removes the space the first
strip kept, so stripping twice differs from stripping once. -/
theorem c6_counterexample :
    parseModelOutput
        ("```json\n \x7b\"requirements\": [], \"total_requirements\": 0\x7d\n```".toList) =
      .ok ⟨[], none, 0⟩
  ∧ stripCodeFences (stripCodeFences
        ("```json\n \x7b\"requirements\": [], \"total_requirements\": 0\x7d\n```".toList)) ≠
      stripCodeFences
        ("```json\n \x7b\"requirements\": [], \"total_requirements\": 0\x7d\n```".toList) :=
  ⟨rfl, by decide⟩
